import Mathlib

/-!
Verification development for the douban-scout bulk-import pipeline
(backend/app/services/import_service.py).  The Python service is shallowly
embedded: pure extraction helpers become Lean functions, the stateful
run becomes explicit state passing over a system-state record, and
exceptions become explicit failure points threaded through an environment.
-/

set_option maxRecDepth 100000

namespace DoubanScout

/-- Genre vocabulary, transcribed from ImportService.VALID_GENRES. -/
def VALID_GENRES : List String := [
  "剧情", "喜剧", "爱情", "动作", "惊悚", "犯罪", "恐怖", "动画", "纪录片", "短片", "悬疑", "冒险", "科幻", "奇幻",
  "家庭", "音乐", "历史", "战争", "歌舞", "传记", "古装", "真人秀", "同性", "运动", "西部", "情色", "儿童", "武侠",
  "脱口秀", "黑色电影", "戏曲", "灾难"]

/-- Region vocabulary, transcribed from ImportService.VALID_REGIONS. -/
def VALID_REGIONS : List String := [
  "美国", "中国大陆", "日本", "英国", "法国", "中国香港", "韩国", "德国", "加拿大", "意大利", "中国台湾", "西班牙", "印度",
  "澳大利亚", "俄罗斯", "巴西", "墨西哥", "泰国", "瑞典", "阿根廷", "比利时", "荷兰", "丹麦", "波兰", "土耳其", "菲律宾",
  "瑞士", "奥地利", "苏联", "芬兰", "挪威", "西德", "葡萄牙", "匈牙利", "以色列", "捷克", "希腊", "罗马尼亚", "爱尔兰",
  "新加坡", "伊朗", "捷克斯洛伐克", "印度尼西亚", "南斯拉夫", "越南", "乌克兰", "智利", "新西兰", "保加利亚", "南非", "马来西亚",
  "哥伦比亚", "冰岛", "爱沙尼亚", "克罗地亚", "埃及", "古巴", "塞尔维亚", "拉脱维亚", "立陶宛", "黎巴嫩", "尼日利亚", "秘鲁",
  "Canada", "斯洛文尼亚", "卢森堡", "格鲁吉亚", "斯洛伐克", "乌拉圭", "阿尔巴尼亚", "委内瑞拉", "USA", "卡塔尔", "摩洛哥",
  "哈萨克斯坦", "巴基斯坦", "巴勒斯坦", "朝鲜", "孟加拉国", "突尼斯", "波黑", "阿尔及利亚", "波多黎各", "多米尼加", "UK",
  "India", "东德", "中国", "阿联酋", "厄瓜多尔", "白俄罗斯", "亚美尼亚", "尼泊尔", "叙利亚", "沙特阿拉伯", "Australia",
  "柬埔寨", "中国澳门", "玻利维亚", "斯里兰卡", "塞内加尔", "蒙古", "伊拉克", "缅甸", "Turkey", "哥斯达黎加", "塞浦路斯",
  "肯尼亚", "阿塞拜疆", "阿富汗", "北马其顿", "约旦", "蘇聯", "科索沃", "印尼", "危地马拉", "Russia", "乌兹别克斯坦",
  "布基纳法索", "吉尔吉斯斯坦", "前苏联", "巴拉圭", "巴拿马", "黑山", "摩纳哥", "马其顿", "Germany", "Indonesia",
  "尼加拉瓜", "Netherlands", "加纳", "Poland", "Sweden", "Mexico", "俄国", "埃塞俄比亚", "Austria",
  "刚果", "马耳他", "喀麦隆", "Greece", "France", "Denmark", "Belgium", "老挝", "Ireland",
  "Argentina", "Soviet", "科威特", "Portugal", "Singapore", "Union", "Brazil", "波斯尼亚和黑塞哥维那",
  "孟加拉", "Philippines", "Indian", "马里", "Switzerland", "Hungary", "Norway", "不丹", "New",
  "俄羅斯", "Finland", "香港", "塞黑", "Republic", "圣马力诺", "津巴布韦", "Czech", "澳洲", "Zealand",
  "South", "Italy", "摩尔多瓦", "Israel", "Kazakhstan", "West", "Romania", "Ukraine", "塔吉克斯坦",
  "英國", "Vietnam", "台灣", "Cyprus", "BBC", "Chile", "Czechoslovakia", "Africa", "Spain",
  "Iran", "Iceland", "Palestine", "多米尼加共和国", "加拿大Canada", "乍得", "尼日尔", "联邦德国", "列支敦士登",
  "海地", "苏丹", "萨尔瓦多", "索马里", "Lebanon", "Bulgaria", "Senegal", "Peru", "China", "卢旺达",
  "india", "丹麥", "洪都拉斯", "Lithuania", "Cambodia", "安哥拉", "Cuba", "Venezuela", "Egypt",
  "Taiwan", "莫桑比克", "原西德", "Belarus", "Colombia", "Croatia", "佛得角", "US", "argentina",
  "Kenya", "牙买加", "科特迪瓦", "毛里塔尼亚", "Japan", "坦桑尼亚", "法罗群岛", "乌干达", "格陵兰", "Guatemala",
  "几内亚比绍", "Malaysia", "uk", "Armenia", "United", "brasil", "Syria", "Philippine",
  "Jamaica", "Arab", "巴林", "也门", "德國", "Bolivia", "Russian", "台灣Taiwan", "Serbia",
  "Myanmar", "Pakistan", "刚果（金）", "利比亚", "博茨瓦纳", "美國", "巴哈马", "Emirates", "usa", "Haiti",
  "canada", "比利時", "纳米比亚", "阿拉伯联合酋长国", "poland", "阿鲁巴", "加蓬", "赞比亚", "The", "Korea",
  "Burkina", "Faso", "捷克共和国", "Slovakia", "Netherland", "Uruguay", "马达加斯加", "Nepal",
  "Qatar", "苏里南", "菲律宾Philippine", "Estonia", "Cameroon", "贝宁", "安道尔", "and", "奧地利", "of",
  "前西德", "几内亚", "巴布亚新几内亚", "Ecuador", "Paraguay", "印度India", "Mainland", "塞拉利昂", "荷蘭",
  "南极洲", "马其顿共和国", "Guinea", "Bangladesh", "印度尼西亞", "萨摩亚", "荷兰Netherlands", "Mongolia",
  "Macedonia", "Columbia", "新加坡Singapore", "斐济", "Ghana", "U.S.", "Panama", "North",
  "澳大利亚Australia", "the", "菲律賓", "Jordan", "库克群岛", "利比里亚", "Kyrgyzstan", "Bahamas",
  "Thailand", "中非", "Islands", "Turkmenistan", "Iraq", "澳大利亞", "Morocco", "蒙古国", "美國USA",
  "刚果(布)", "莱索托", "brazil", "阿曼", "East", "Luxembourg", "西撒哈拉", "Danmark", "泰國", "Papua",
  "Honduras", "Madagascar", "El", "Salvador", "English", "伯利兹", "塞尔维亚和黑山", "Virgin",
  "USSR", "Albania", "Yugoslavia", "Brasil", "芬蘭", "特立尼达和多巴哥", "英國UK", "丹麦Denmark",
  "Holland", "巴巴多斯", "Nigeria", "Saudi", "Arabia", "阿根廷Argentina", "波兰Poland",
  "俄羅斯Russia"]

/-- Import status values of the ImportStatus pydantic schema. -/
inductive StatusKind
  | idle | running | completed | failed
deriving DecidableEq

/-- ImportStatus (app/schemas.py): the shared run-state snapshot.
Timestamps are abstract clock readings (Nat); percentage is exact (Rat). -/
structure ImportStatus where
  status : StatusKind
  processed : Nat := 0
  total : Nat := 0
  percentage : Rat := 0
  message : Option String := none
  started_at : Option Nat := none
  completed_at : Option Nat := none
deriving DecidableEq

/-- Result of ImportService.start_import: a RuntimeError conflict, or the
fresh running snapshot returned to the caller. -/
inductive StartResult
  | conflict
  | started (snapshot : ImportStatus)
deriving DecidableEq

/-- The reset status built by start_import when no run is in flight. -/
def freshRunning (now : Nat) : ImportStatus :=
  { status := .running, processed := 0, total := 0, percentage := 0,
    started_at := some now }

/-- ImportService.start_import, as a pure transition on the stored status:
returns the outcome plus the status left in the singleton. -/
def startImport (cur : ImportStatus) (now : Nat) : StartResult × ImportStatus :=
  if cur.status = .running then (.conflict, cur)
  else (.started (freshRunning now), freshRunning now)

/-- The "rating" sub-object of detail; count is the value of its "count"
key when present. -/
structure RatingInfo where
  count : Option Int := none
deriving DecidableEq

/-- The "pic" sub-object of detail. An empty string models a falsy value. -/
structure Pic where
  normal : Option String := none
  large : Option String := none
deriving DecidableEq

/-- The "detail" JSON object of a source row's raw_data.  A none field
models a missing key or a value of the wrong shape (the code guards every
access with isinstance / truthiness checks). -/
structure Detail where
  rating : Option RatingInfo := none
  pic : Option Pic := none
  cover_url : Option String := none
  countries : Option (List String) := none
  card_subtitle : Option String := none
  subtitle : Option String := none
deriving DecidableEq

/-- The raw_data column of a source row as the import loop sees it:
NULL/empty (falsy, skipped), malformed JSON (JSONDecodeError, caught with a
warning), parsed JSON whose "detail" is not a dict, or a dict detail. -/
inductive RawData
  | empty
  | malformed
  | nonDictDetail
  | detail (d : Detail)
deriving DecidableEq

/-- One row of the source `item` table as fetched by the import SELECT.
douban_id = none models a value on which int(douban_id) raises, the
per-row failure mode. -/
structure SourceRow where
  douban_id : Option Int
  title : Option String := none
  year : Option Int := none
  rating : Option Rat := none
  raw_data : RawData := .empty
  itemKind : String
  update_time : Option Int := none
deriving DecidableEq

/-- rating_count extraction: starts at 0; if detail is a dict and its
"rating" value is a dict, becomes rating_info.get("count", 0). -/
def ratingCountOf (rd : RawData) : Int :=
  match rd with
  | .detail d =>
    match d.rating with
    | some ri => ri.count.getD 0
    | none => 0
  | _ => 0

/-- The "count" value actually carried by the source record, if any. -/
def carriedCount (rd : RawData) : Option Int :=
  match rd with
  | .detail d => d.rating.bind (fun ri => ri.count)
  | _ => none

/-- set.add of an optional value guarded by Python truthiness. -/
def addIfTruthy (s : Finset String) : Option String → Finset String
  | some v => if v = "" then s else insert v s
  | none => s

/-- Poster URL extraction: pic.normal, pic.large, then cover_url, each
added only when present and truthy. -/
def postersOf (rd : RawData) : Finset String :=
  match rd with
  | .detail d =>
    let s : Finset String := ∅
    let s := match d.pic with
      | some p => addIfTruthy (addIfTruthy s p.normal) p.large
      | none => s
    addIfTruthy s d.cover_url
  | _ => ∅

/-- Fold of the countries list: add each entry that is a valid region. -/
def countriesFold (cs : List String) : Finset String :=
  cs.foldl (fun acc c => if c ∈ VALID_REGIONS then insert c acc else acc) ∅

/-- Regions taken from detail.countries when it is a list. -/
def regionsFromCountries (rd : RawData) : Finset String :=
  match rd with
  | .detail d =>
    match d.countries with
    | some cs => countriesFold cs
    | none => ∅
  | _ => ∅

/-- detail.get("card_subtitle") or detail.get("subtitle", ""):
falls back to subtitle when card_subtitle is missing or falsy. -/
def effectiveSubtitle (d : Detail) : String :=
  match d.card_subtitle with
  | some s => if s = "" then d.subtitle.getD "" else s
  | none => d.subtitle.getD ""

/-- Delimiters of the token split: replacing "/" by a space and then
splitting on whitespace is the same as splitting on whitespace-or-slash. -/
def isDelim (c : Char) : Bool := c.isWhitespace || c = '/'

/-- Character-level splitter for card_subtitle.replace("/", " ").split():
acc holds the current token's characters in reverse; empty tokens are
dropped, as str.split() with no argument does. -/
def tokensAux : List Char → List Char → List String
  | [], acc => if acc.isEmpty then [] else [String.mk acc.reverse]
  | c :: cs, acc =>
    if isDelim c then
      if acc.isEmpty then tokensAux cs []
      else String.mk acc.reverse :: tokensAux cs []
    else tokensAux cs (c :: acc)

/-- The whitespace/slash tokens of a subtitle string. -/
def subtitleTokens (s : String) : List String :=
  tokensAux s.data []

/-- Per-token body of the subtitle loop: a genre token is always added;
a region token is added only while the row's region set is still empty. -/
def subtitleStep (acc : Finset String × Finset String) (token : String) :
    Finset String × Finset String :=
  let g := if token ∈ VALID_GENRES then insert token acc.1 else acc.1
  let r := if acc.2 = ∅ ∧ token ∈ VALID_REGIONS then insert token acc.2 else acc.2
  (g, r)

/-- The token loop over a subtitle string, starting from the genre and
region sets already accumulated. -/
def processSubtitle (g0 r0 : Finset String) (s : String) :
    Finset String × Finset String :=
  (subtitleTokens s).foldl subtitleStep (g0, r0)

/-- Genre/region extraction for one row: regions from the countries list,
then the card_subtitle/subtitle token loop when the subtitle is truthy. -/
def extractMeta (rd : RawData) : Finset String × Finset String :=
  match rd with
  | .detail d =>
    let regions0 := regionsFromCountries rd
    let sub := effectiveSubtitle d
    if sub = "" then (∅, regions0) else processSubtitle ∅ regions0 sub
  | _ => (∅, ∅)

/-- One normalized item as written into the staging store. -/
structure MovieRec where
  id : Int
  title : String
  year : Option Int
  rating : Option Rat
  rating_count : Int
  itemKind : String
  genres : Finset String
  regions : Finset String
  posters : Finset String
  updated_at : Option Int
deriving DecidableEq

/-- The body of the per-row try block: none models the only per-row
failure mode of the embedding (int(douban_id) raising); otherwise the
movie dictionary appended to the batch. -/
def processRow (row : SourceRow) : Option MovieRec :=
  match row.douban_id with
  | none => none
  | some i =>
    some { id := i,
           title := row.title.getD "",
           year := row.year,
           rating := row.rating,
           rating_count := ratingCountOf row.raw_data,
           itemKind := row.itemKind,
           genres := (extractMeta row.raw_data).1,
           regions := (extractMeta row.raw_data).2,
           posters := postersOf row.raw_data,
           updated_at := row.update_time }

/-- The rows actually fetched: SELECT ... WHERE type IN ('movie', 'tv').
Placeholder rows (empty kind) and other kinds are excluded up front. -/
def fetchRows (source : List SourceRow) : List SourceRow :=
  source.filter (fun r => r.itemKind = "movie" ∨ r.itemKind = "tv")

/-- SELECT COUNT of the importable rows. -/
def totalOf (source : List SourceRow) : Nat := (fetchRows source).length

/-- A database file's reachable content: the committed items, plus whether
the post-import optimization (FTS rebuild/ANALYZE/VACUUM) succeeded. -/
structure Store where
  items : List MovieRec
  optimized : Bool := false
deriving DecidableEq

/-- Fatal failure points of a run, i.e. places where the code can raise
outside the per-row try: source open, staging creation, the k-th
_insert_batch call, the final commit, or the atomic swap. -/
inductive FailPoint
  | sourceOpen
  | stagingCreate
  | insertBatch (call : Nat)
  | commit
  | swap
deriving DecidableEq

/-- Failure-injection environment of a run plus the completion clock. -/
structure Env where
  fail : Option FailPoint := none
  optimizeFails : Bool := false
  now : Nat := 0
deriving DecidableEq

/-- The fixed batch size of the import loop. -/
def batchSize : Nat := 1000

/-- Whether the call-th _insert_batch call raises.  A failed flush leaves
the staging transaction unusable, so every later flush on the same
session fails as well (SQLAlchemy PendingRollbackError semantics). -/
def insertFails (env : Env) (call : Nat) : Bool :=
  match env.fail with
  | some (.insertBatch k) => k ≤ call
  | _ => false

/-- Mutable state of the import loop: the pending batch, counters, calls
made to _insert_batch, rows flushed into the staging transaction, the
current shared status, and the status snapshots published so far. -/
structure LoopState where
  batch : List MovieRec := []
  processed : Nat := 0
  errorCount : Nat := 0
  detailedErrorLogs : Nat := 0
  insertCalls : Nat := 0
  staged : List MovieRec := []
  status : ImportStatus
  snaps : List ImportStatus := []
deriving DecidableEq

/-- processed/total*100, or 100.0 when total is 0. -/
def pctOf (total processed : Nat) : Rat :=
  if 0 < total then (processed : Rat) / (total : Rat) * 100 else 100

/-- One iteration of the per-row loop.  A row failure (or an in-loop
_insert_batch failure, which the per-row except also catches) bumps the
error counter and the unconditional detailed log; a successful flush of a
full batch advances processed and publishes a status snapshot. -/
def rowStep (env : Env) (total : Nat) (ls : LoopState) (row : SourceRow) :
    LoopState :=
  match processRow row with
  | none =>
    { ls with
      errorCount := ls.errorCount + 1
      detailedErrorLogs := ls.detailedErrorLogs + 1 }
  | some m =>
    let batch := ls.batch ++ [m]
    if batchSize ≤ batch.length then
      if insertFails env ls.insertCalls then
        { ls with
          batch := batch
          insertCalls := ls.insertCalls + 1
          errorCount := ls.errorCount + 1
          detailedErrorLogs := ls.detailedErrorLogs + 1 }
      else
        let processed := ls.processed + batch.length
        let st := { ls.status with
                    processed := processed
                    percentage := pctOf total processed }
        { ls with
          batch := []
          processed := processed
          insertCalls := ls.insertCalls + 1
          staged := ls.staged ++ batch
          status := st
          snaps := ls.snaps ++ [st] }
    else { ls with batch := batch }

/-- The loop state before the first row: empty batch, zero counters, the
status as set after recording the total. -/
def initLoopState (st : ImportStatus) : LoopState :=
  { status := st, snaps := [] }

/-- The whole per-row loop of _import_data over the fetched rows. -/
def runLoop (env : Env) (total : Nat) (rows : List SourceRow)
    (st : ImportStatus) : LoopState :=
  rows.foldl (rowStep env total) (initLoopState st)

/-- World state around a run: production store content, the staging
(temp) file if present, and the shared status singleton. -/
structure SysState where
  prod : Option Store := none
  tempFile : Option Store := none
  status : ImportStatus
deriving DecidableEq

/-- Outcome of one worker run: final world state, the ordered status
snapshots a concurrent reader could observe, and the loop counters. -/
structure RunResult where
  state : SysState
  snaps : List ImportStatus
  errorCount : Nat
  detailedErrorLogs : Nat
deriving DecidableEq

/-- The outer except handler of _import_data: delete the staging file if
present, set status failed with the error message and completion time. -/
def failedState (env : Env) (msg : String) (s : SysState)
    (snaps : List ImportStatus) (ec dl : Nat) : RunResult :=
  let st := { s.status with
              status := .failed
              message := some msg
              completed_at := some env.now }
  { state := { s with tempFile := none, status := st },
    snaps := snaps ++ [st], errorCount := ec, detailedErrorLogs := dl }

/-- ImportService._import_data as a state transition: source validation
and open, total count, staging creation, the batched row loop, the final
remainder flush, commit, best-effort optimization, and the atomic swap,
with any raised error landing in the outer except handler. -/
def importData (env : Env) (source : List SourceRow) (s : SysState) :
    RunResult :=
  let snaps0 := [s.status]
  if env.fail = some .sourceOpen then
    failedState env "source open failure" s snaps0 0 0
  else
    let total := totalOf source
    let st1 := { s.status with total := total }
    let s1 : SysState := { s with status := st1 }
    let snaps1 := snaps0 ++ [st1]
    if env.fail = some .stagingCreate then
      failedState env "staging create failure" s1 snaps1 0 0
    else
      let s2 : SysState := { s1 with tempFile := some { items := [] } }
      let ls := runLoop env total (fetchRows source) st1
      let snaps2 := snaps1 ++ ls.snaps
      let s3 : SysState := { s2 with status := ls.status }
      if ls.batch ≠ [] ∧ insertFails env ls.insertCalls = true then
        failedState env "insert batch failure" s3 snaps2
          ls.errorCount ls.detailedErrorLogs
      else
        let staged := ls.staged ++ ls.batch
        let processed := ls.processed + ls.batch.length
        if env.fail = some .commit then
          failedState env "commit failure" s3 snaps2
            ls.errorCount ls.detailedErrorLogs
        else
          let store : Store :=
            { items := staged, optimized := env.optimizeFails = false }
          let s4 : SysState := { s3 with tempFile := some store }
          if env.fail = some .swap then
            failedState env "swap failure" s4 snaps2
              ls.errorCount ls.detailedErrorLogs
          else
            let stC := { s4.status with
                         status := .completed
                         processed := processed
                         percentage := 100
                         completed_at := some env.now }
            { state := { prod := some store, tempFile := none,
                         status := stC },
              snaps := snaps2 ++ [stC],
              errorCount := ls.errorCount,
              detailedErrorLogs := ls.detailedErrorLogs }

/-! ### Helper lemmas -/

lemma insertFails_none {env : Env} (h : env.fail = none) (k : Nat) :
    insertFails env k = false := by
  simp [insertFails, h]

lemma insertFails_mono {env : Env} {k : Nat} (h : insertFails env k = true) :
    insertFails env (k + 1) = true := by
  rcases env with ⟨fail, ofails, now⟩
  cases fail with
  | none => exact absurd h Bool.false_ne_true
  | some fp =>
    cases fp with
    | insertBatch j =>
      have hjk : j ≤ k := of_decide_eq_true h
      exact decide_eq_true (by omega)
    | sourceOpen => exact absurd h Bool.false_ne_true
    | stagingCreate => exact absurd h Bool.false_ne_true
    | commit => exact absurd h Bool.false_ne_true
    | swap => exact absurd h Bool.false_ne_true

lemma batchSize_pos : 0 < batchSize := by decide

lemma pctOf_mono {t : Nat} {p q : Nat} (h : p ≤ q) : pctOf t p ≤ pctOf t q := by
  unfold pctOf
  split
  · have hp : (p : Rat) ≤ (q : Rat) := by exact_mod_cast h
    have ht : (0 : Rat) < (t : Rat) := by positivity
    gcongr
  · exact le_refl _

lemma pctOf_nonneg (t p : Nat) : 0 ≤ pctOf t p := by
  unfold pctOf
  split
  · positivity
  · norm_num

lemma pctOf_le_100 {t p : Nat} (h : p ≤ t) : pctOf t p ≤ 100 := by
  unfold pctOf
  split
  · rename_i ht
    have htq : (0 : Rat) < (t : Rat) := by exact_mod_cast ht
    have hpq : (p : Rat) ≤ (t : Rat) := by exact_mod_cast h
    calc (p : Rat) / (t : Rat) * 100 ≤ (t : Rat) / (t : Rat) * 100 := by gcongr
    _ = 100 := by rw [div_self (ne_of_gt htq)]; ring
  · exact le_refl _

lemma subtitle_fold_stable (ts : List String) :
    ∀ (g r : Finset String), r ≠ ∅ → (ts.foldl subtitleStep (g, r)).2 = r := by
  induction ts with
  | nil => intro g r _; rfl
  | cons t ts ih =>
    intro g r h
    have hstep : subtitleStep (g, r) t
        = (if t ∈ VALID_GENRES then insert t g else g, r) := by
      simp [subtitleStep, h]
    rw [List.foldl_cons, hstep]
    exact ih _ r h

/-- The region set the subtitle loop produces when nothing was found in
the countries list: the first token of the subtitle that is a valid
region, or nothing. -/
def firstRegionToken (ts : List String) : Finset String :=
  match ts.find? (fun t => decide (t ∈ VALID_REGIONS)) with
  | some t => {t}
  | none => ∅

lemma subtitle_fold_empty (ts : List String) :
    ∀ (g : Finset String), (ts.foldl subtitleStep (g, ∅)).2 = firstRegionToken ts := by
  induction ts with
  | nil => intro g; rfl
  | cons t ts ih =>
    intro g
    by_cases ht : t ∈ VALID_REGIONS
    · have hstep : subtitleStep (g, ∅) t
          = (if t ∈ VALID_GENRES then insert t g else g, {t}) := by
        simp [subtitleStep, ht]
      rw [List.foldl_cons, hstep,
        subtitle_fold_stable ts _ _ (by simp : ({t} : Finset String) ≠ ∅)]
      simp [firstRegionToken, List.find?, ht]
    · have hstep : subtitleStep (g, ∅) t
          = (if t ∈ VALID_GENRES then insert t g else g, ∅) := by
        simp [subtitleStep, ht]
      rw [List.foldl_cons, hstep, ih]
      simp [firstRegionToken, List.find?, ht]

lemma ratingCountOf_eq (rd : RawData) :
    ratingCountOf rd = (carriedCount rd).getD 0 := by
  cases rd with
  | detail d =>
    cases hr : d.rating with
    | none => simp [ratingCountOf, carriedCount, hr]
    | some ri => cases ri.count <;> simp_all [ratingCountOf, carriedCount]
  | empty => rfl
  | malformed => rfl
  | nonDictDetail => rfl

/-! ### Claim theorems -/

/-- C2: start_import raises a conflict and leaves the stored status
untouched while a run is in flight; from any other status it resets the
state to a fresh running snapshot (processed 0, total 0, percentage 0,
fresh start timestamp) and returns that snapshot. -/
theorem start_import_conflict_or_reset (cur : ImportStatus) (now : Nat) :
    (cur.status = .running → startImport cur now = (.conflict, cur)) ∧
    (cur.status ≠ .running →
      startImport cur now = (.started (freshRunning now), freshRunning now) ∧
      (freshRunning now).status = .running ∧
      (freshRunning now).processed = 0 ∧
      (freshRunning now).total = 0 ∧
      (freshRunning now).percentage = 0 ∧
      (freshRunning now).started_at = some now ∧
      (freshRunning now).completed_at = none) := by
  constructor
  · intro h; simp [startImport, h]
  · intro h; simp [startImport, h, freshRunning]

/-- Witness for C2 at a running and at an idle status. -/
theorem start_import_conflict_or_reset_witness :
    startImport { status := .running } 5 = (.conflict, { status := .running }) ∧
    startImport { status := .idle } 5
      = (.started (freshRunning 5), freshRunning 5) :=
  ⟨(start_import_conflict_or_reset { status := .running } 5).1 rfl,
   ((start_import_conflict_or_reset { status := .idle } 5).2 (by decide)).1⟩

/-- C4 (evaluation at the failing input): on the structured subtitle
"1994 / 美国 法国 / 剧情 犯罪" with no regions from the countries list the
row-import extraction yields genres {剧情, 犯罪} but only the single
region 美国 — the guard re-checks emptiness per token, so 法国 is dropped,
in divergence from the spec scenario and the repository's own
test_context_aware_parsing expectation of {美国, 法国}. -/
theorem structured_subtitle_drops_second_region :
    extractMeta (.detail { card_subtitle := some "1994 / 美国 法国 / 剧情 犯罪" })
      = ({"剧情", "犯罪"}, {"美国"}) ∧
    "法国" ∉
      (extractMeta (.detail { card_subtitle := some "1994 / 美国 法国 / 剧情 犯罪" })).2 := by
  constructor
  · decide
  · decide

/-- C5: ASCII vocabulary entries only match whole whitespace/slash
tokens: "India" is extracted from "India is a country" and is not
extracted from "Indiana Jones". -/
theorem india_word_boundary :
    "India" ∈ (extractMeta (.detail { card_subtitle := some "India is a country" })).2 ∧
    "India" ∉ (extractMeta (.detail { card_subtitle := some "Indiana Jones" })).2 := by
  constructor
  · decide
  · decide

/-- A source row on which per-row processing raises. -/
def erroringRow : SourceRow := { douban_id := none, itemKind := "movie" }

/-- C6 (evaluation): a run over 11 erroring rows completes (errors never
abort the run), skips every failing row, and counts all 11 errors — but
the detailed (full-traceback) log is emitted 11 times, not capped at the
first _MAX_ERROR_LOGS = 10 as the claim and the constant's own comment
state: the code logs detail unconditionally before checking the cap. -/
theorem per_row_error_logging_not_suppressed :
    (importData {} (List.replicate 11 erroringRow) { status := freshRunning 0 }).errorCount = 11 ∧
    (importData {} (List.replicate 11 erroringRow) { status := freshRunning 0 }).detailedErrorLogs = 11 ∧
    10 < (importData {} (List.replicate 11 erroringRow) { status := freshRunning 0 }).detailedErrorLogs ∧
    (importData {} (List.replicate 11 erroringRow) { status := freshRunning 0 }).state.status.status = .completed ∧
    (importData {} (List.replicate 11 erroringRow) { status := freshRunning 0 }).state.prod
      = some { items := [], optimized := true } := by
  refine ⟨by decide, by decide, by decide, by decide, by decide⟩

/-- C7: when ingestion and swap succeed (no fatal failure point), the run
reaches status completed with 100% progress regardless of whether the
post-processing optimization phase fails — optimizer errors are swallowed
and never mark the run failed. -/
theorem optimize_failure_nonfatal (source : List SourceRow) (s : SysState)
    (ofails : Bool) (n : Nat) :
    (importData { fail := none, optimizeFails := ofails, now := n } source s).state.status.status
      = .completed ∧
    (importData { fail := none, optimizeFails := ofails, now := n } source s).state.status.percentage
      = 100 := by
  unfold importData
  simp [insertFails]

/-- C10: if the countries list already yielded a region, the subtitle
token loop adds none; starting from an empty region set it adds exactly
the first valid-region token (if any), hence at most one region. -/
theorem subtitle_regions_single_fallback (cs : List String) (s : String)
    (g0 : Finset String) :
    (countriesFold cs ≠ ∅ →
      (processSubtitle g0 (countriesFold cs) s).2 = countriesFold cs) ∧
    (processSubtitle g0 ∅ s).2 = firstRegionToken (subtitleTokens s) ∧
    ((processSubtitle g0 ∅ s).2).card ≤ 1 := by
  refine ⟨fun h => subtitle_fold_stable _ _ _ h, subtitle_fold_empty _ _, ?_⟩
  rw [processSubtitle, subtitle_fold_empty]
  unfold firstRegionToken
  split
  · simp
  · simp

/-- Witness for C10: with 美国 found in the countries list, the subtitle
"法国" contributes no region. -/
theorem subtitle_regions_single_fallback_witness :
    (processSubtitle ∅ (countriesFold ["美国"]) "法国").2 = countriesFold ["美国"] :=
  (subtitle_regions_single_fallback ["美国"] "法国" ∅).1 (by decide)

/-- A source row whose raw_data carries a negative rating count. -/
def negativeCountRow : SourceRow :=
  { douban_id := some 1, itemKind := "movie",
    raw_data := .detail { rating := some { count := some (-1) } } }

/-- C9 (counterexample): the import writes the source-provided rating
count through unclamped, so a source record carrying count = -1 produces
a store item with rating_count = -1 < 0, refuting "never negative". -/
theorem rating_count_can_be_negative :
    (importData {} [negativeCountRow] { status := freshRunning 0 }).state.prod.map
        (fun st => st.items.map (fun m => m.rating_count)) = some [-1] ∧
    (-1 : Int) < 0 := by
  constructor
  · decide
  · decide

/-- C9 (amended): rating_count defaults to 0 exactly when the source
record carries no count and otherwise equals the carried value (so it is
non-negative whenever the source count is); the rating is passed through
unchanged, so an absent rating is stored as NULL, distinct from 0. -/
theorem rating_count_default_and_rating_null (row : SourceRow) (m : MovieRec)
    (h : processRow row = some m) :
    m.rating_count = (carriedCount row.raw_data).getD 0 ∧
    (carriedCount row.raw_data = none → m.rating_count = 0) ∧
    (∀ c : Int, carriedCount row.raw_data = some c → m.rating_count = c) ∧
    m.rating = row.rating ∧
    (row.rating = none → m.rating ≠ some 0) := by
  unfold processRow at h
  cases hid : row.douban_id with
  | none => rw [hid] at h; exact absurd h (by simp)
  | some i =>
    rw [hid] at h
    have hm := Option.some.inj h
    subst hm
    refine ⟨by simpa using ratingCountOf_eq row.raw_data, ?_, ?_, rfl, ?_⟩
    · intro hc; simp [ratingCountOf_eq, hc]
    · intro c hc; simp [ratingCountOf_eq, hc]
    · intro hr; simp [hr]

/-- Witness for C9 (amended) at a concrete row with no carried count and
a NULL rating. -/
theorem rating_count_default_and_rating_null_witness :
    ({ id := 2, title := "", year := none, rating := none, rating_count := 0,
       itemKind := "tv", genres := ∅, regions := ∅, posters := ∅,
       updated_at := none } : MovieRec).rating_count
      = (carriedCount ({ douban_id := some 2, itemKind := "tv" } : SourceRow).raw_data).getD 0 :=
  (rating_count_default_and_rating_null { douban_id := some 2, itemKind := "tv" }
    { id := 2, title := "", year := none, rating := none, rating_count := 0,
      itemKind := "tv", genres := ∅, regions := ∅, posters := ∅,
      updated_at := none } (by decide)).1

/-! ### C1: fatal errors leave production untouched -/

lemma importData_cases (env : Env) (source : List SourceRow) (s : SysState) :
    (importData env source s).state.status.status = .completed ∨
    ((importData env source s).state.prod = s.prod ∧
     (importData env source s).state.tempFile = none ∧
     (importData env source s).state.status.message.isSome = true ∧
     (importData env source s).state.status.completed_at = some env.now ∧
     (importData env source s).state.status.status = .failed) := by
  obtain ⟨fail, ofail, now⟩ := env
  cases fail with
  | none => left; simp [importData, insertFails]
  | some fp =>
    cases fp with
    | sourceOpen => right; simp [importData, failedState]
    | stagingCreate => right; simp [importData, failedState]
    | commit => right; simp [importData, failedState, insertFails]
    | swap => right; simp [importData, failedState, insertFails]
    | insertBatch k =>
      unfold importData
      set L := runLoop ⟨some (.insertBatch k), ofail, now⟩ (totalOf source)
        (fetchRows source) { s.status with total := totalOf source } with hL
      by_cases hbc : L.batch ≠ [] ∧
          insertFails ⟨some (.insertBatch k), ofail, now⟩ L.insertCalls = true
      · right; simp [hbc, failedState]
      · left; simp [hbc, failedState]

/-- C1: whenever a run ends failed — i.e. a fatal error occurred outside
per-row processing and reached the outer except handler — the production
store is exactly what it was before the run, the staging file is gone,
and the status carries an error message and a completion timestamp. -/
theorem fatal_error_rolls_back (env : Env) (source : List SourceRow)
    (s : SysState) (h : (importData env source s).state.status.status = .failed) :
    (importData env source s).state.prod = s.prod ∧
    (importData env source s).state.tempFile = none ∧
    (importData env source s).state.status.message.isSome = true ∧
    (importData env source s).state.status.completed_at = some env.now := by
  rcases importData_cases env source s with hc | hf
  · rw [hc] at h
    exact absurd h (by decide)
  · exact ⟨hf.1, hf.2.1, hf.2.2.1, hf.2.2.2.1⟩

/-- Witness for C1: a run whose source open fails. -/
theorem fatal_error_rolls_back_witness :
    (importData { fail := some .sourceOpen, now := 7 } [erroringRow]
        { prod := some { items := [] }, status := freshRunning 0 }).state.prod
      = some { items := [] } ∧
    (importData { fail := some .sourceOpen, now := 7 } [erroringRow]
        { prod := some { items := [] }, status := freshRunning 0 }).state.tempFile
      = none ∧
    (importData { fail := some .sourceOpen, now := 7 } [erroringRow]
        { prod := some { items := [] }, status := freshRunning 0 }).state.status.message.isSome
      = true ∧
    (importData { fail := some .sourceOpen, now := 7 } [erroringRow]
        { prod := some { items := [] }, status := freshRunning 0 }).state.status.completed_at
      = some 7 :=
  fatal_error_rolls_back { fail := some .sourceOpen, now := 7 } [erroringRow]
    { prod := some { items := [] }, status := freshRunning 0 } (by decide)

/-! ### C3: error-free runs import exactly the importable rows -/

lemma rowStep_ok (env : Env) (total : Nat) (ls : LoopState) (r : SourceRow)
    (hf : env.fail = none) (hr : (processRow r).isSome = true) :
    (rowStep env total ls r).processed + (rowStep env total ls r).batch.length
        = ls.processed + ls.batch.length + 1 ∧
    (rowStep env total ls r).staged.length + (rowStep env total ls r).batch.length
        = ls.staged.length + ls.batch.length + 1 ∧
    (rowStep env total ls r).errorCount = ls.errorCount ∧
    (rowStep env total ls r).status.total = ls.status.total := by
  obtain ⟨m, hm⟩ := Option.isSome_iff_exists.mp hr
  unfold rowStep
  rw [hm]
  dsimp only
  have hlen : (ls.batch ++ [m]).length = ls.batch.length + 1 := by simp
  by_cases hb : batchSize ≤ (ls.batch ++ [m]).length
  · rw [if_pos hb]
    split
    · rename_i hins
      rw [insertFails_none hf] at hins
      cases hins
    · refine ⟨?_, ?_, rfl, rfl⟩
      · show ls.processed + (ls.batch ++ [m]).length
            + ([] : List MovieRec).length = ls.processed + ls.batch.length + 1
        rw [hlen]; simp; omega
      · show (ls.staged ++ (ls.batch ++ [m])).length
            + ([] : List MovieRec).length = ls.staged.length + ls.batch.length + 1
        simp; omega
  · rw [if_neg hb]
    refine ⟨?_, ?_, rfl, rfl⟩
    · show ls.processed + (ls.batch ++ [m]).length = ls.processed + ls.batch.length + 1
      rw [hlen]; omega
    · show ls.staged.length + (ls.batch ++ [m]).length
          = ls.staged.length + ls.batch.length + 1
      rw [hlen]; omega

lemma loop_counts (env : Env) (total : Nat) (hf : env.fail = none) :
    ∀ (rows : List SourceRow) (ls : LoopState),
      (∀ r ∈ rows, (processRow r).isSome = true) →
      (rows.foldl (rowStep env total) ls).processed
          + (rows.foldl (rowStep env total) ls).batch.length
        = ls.processed + ls.batch.length + rows.length ∧
      (rows.foldl (rowStep env total) ls).staged.length
          + (rows.foldl (rowStep env total) ls).batch.length
        = ls.staged.length + ls.batch.length + rows.length ∧
      (rows.foldl (rowStep env total) ls).errorCount = ls.errorCount ∧
      (rows.foldl (rowStep env total) ls).status.total = ls.status.total := by
  intro rows
  induction rows with
  | nil => intro ls _; simp
  | cons r rs ih =>
    intro ls h
    have hr := h r (List.mem_cons_self r rs)
    have hrs : ∀ x ∈ rs, (processRow x).isSome = true :=
      fun x hx => h x (List.mem_cons_of_mem _ hx)
    obtain ⟨a1, a2, a3, a4⟩ := rowStep_ok env total ls r hf hr
    obtain ⟨b1, b2, b3, b4⟩ := ih (rowStep env total ls r) hrs
    simp only [List.foldl_cons, List.length_cons] at *
    exact ⟨by omega, by omega, by rw [b3, a3], by rw [b4, a4]⟩

/-- C3: in a run with no fatal failure and no per-row error, the recorded
total is the number of importable source rows (placeholders excluded by
the WHERE filter), the final processed count equals that total, and the
rebuilt store holds exactly that many items. -/
theorem error_free_import_is_complete (env : Env) (source : List SourceRow)
    (s : SysState) (hf : env.fail = none)
    (hrows : ∀ r ∈ fetchRows source, (processRow r).isSome = true) :
    (importData env source s).state.status.status = .completed ∧
    (importData env source s).state.status.total = totalOf source ∧
    (importData env source s).state.status.processed = totalOf source ∧
    (importData env source s).state.prod.map (fun st => st.items.length)
      = some (totalOf source) := by
  obtain ⟨hp, hs, he, ht⟩ := loop_counts env (totalOf source) hf (fetchRows source)
    (initLoopState { s.status with total := totalOf source }) hrows
  unfold importData runLoop
  simp only [hf, insertFails_none, reduceCtorEq, if_false, ite_false,
    Bool.false_eq_true, and_false, ne_eq]
  refine ⟨trivial, ?_, ?_, ?_⟩
  · show (List.foldl (rowStep env (totalOf source))
        (initLoopState { s.status with total := totalOf source })
        (fetchRows source)).status.total = totalOf source
    rw [ht]; rfl
  · show (List.foldl (rowStep env (totalOf source))
          (initLoopState { s.status with total := totalOf source })
          (fetchRows source)).processed
        + (List.foldl (rowStep env (totalOf source))
          (initLoopState { s.status with total := totalOf source })
          (fetchRows source)).batch.length = totalOf source
    simp only [initLoopState] at hp
    simpa [totalOf] using hp
  · show some ((List.foldl (rowStep env (totalOf source))
          (initLoopState { s.status with total := totalOf source })
          (fetchRows source)).staged
        ++ (List.foldl (rowStep env (totalOf source))
          (initLoopState { s.status with total := totalOf source })
          (fetchRows source)).batch).length = some (totalOf source)
    simp only [initLoopState] at hs
    simp only [List.length_append]
    simpa [totalOf] using hs

/-- Witness for C3: one importable row, one placeholder row. -/
theorem error_free_import_is_complete_witness :
    (importData {} [negativeCountRow, { douban_id := some 9, itemKind := "" }]
        { status := freshRunning 0 }).state.status.status = .completed ∧
    (importData {} [negativeCountRow, { douban_id := some 9, itemKind := "" }]
        { status := freshRunning 0 }).state.status.total
      = totalOf [negativeCountRow, { douban_id := some 9, itemKind := "" }] ∧
    (importData {} [negativeCountRow, { douban_id := some 9, itemKind := "" }]
        { status := freshRunning 0 }).state.status.processed
      = totalOf [negativeCountRow, { douban_id := some 9, itemKind := "" }] ∧
    (importData {} [negativeCountRow, { douban_id := some 9, itemKind := "" }]
        { status := freshRunning 0 }).state.prod.map (fun st => st.items.length)
      = some (totalOf [negativeCountRow, { douban_id := some 9, itemKind := "" }]) :=
  error_free_import_is_complete {} [negativeCountRow, { douban_id := some 9, itemKind := "" }]
    { status := freshRunning 0 } rfl (by decide)

/-! ### C8: progress snapshots are monotone with bounded jumps -/

/-- Relation between consecutive status snapshots a concurrent reader can
observe: processed never decreases, jumps by at most one batch, and the
percentage never decreases. -/
def statusStep (a b : ImportStatus) : Prop :=
  a.processed ≤ b.processed ∧ b.processed ≤ a.processed + batchSize ∧
  a.percentage ≤ b.percentage

/-- Invariant of the import loop with `remaining` rows left to process. -/
def loopInv (env : Env) (total remaining : Nat) (ls : LoopState) : Prop :=
  ls.status.processed = ls.processed ∧
  ls.status.percentage ≤ pctOf total ls.processed ∧
  ls.processed + ls.batch.length + remaining ≤ total ∧
  (ls.batch.length < batchSize ∨ insertFails env ls.insertCalls = true)

/-- The published snapshots so far form a statusStep chain ending at the
current status. -/
def chainInv (trace : List ImportStatus) (ls : LoopState) : Prop :=
  List.Chain' statusStep (trace ++ ls.snaps) ∧
  (trace ++ ls.snaps).getLast? = some ls.status

lemma chain_snoc {α : Type} {R : α → α → Prop} {l : List α} {a b : α}
    (hl : List.Chain' R l) (hlast : l.getLast? = some a) (hab : R a b) :
    List.Chain' R (l ++ [b]) ∧ (l ++ [b]).getLast? = some b := by
  constructor
  · rw [List.chain'_append]
    refine ⟨hl, List.chain'_singleton b, ?_⟩
    intro x hx y hy
    rw [hlast] at hx
    simp only [Option.mem_def, Option.some.injEq] at hx hy
    subst hx
    simp only [List.head?_cons, Option.some.injEq] at hy
    subst hy
    exact hab
  · exact List.getLast?_concat l

lemma rowStep_inv (env : Env) (total : Nat) (trace : List ImportStatus)
    (ls : LoopState) (r : SourceRow) (n : Nat)
    (hI : loopInv env total (n + 1) ls) (hC : chainInv trace ls) :
    loopInv env total n (rowStep env total ls r) ∧
    chainInv trace (rowStep env total ls r) := by
  obtain ⟨h1, h2, h3, h4⟩ := hI
  obtain ⟨hc1, hc2⟩ := hC
  unfold loopInv chainInv
  unfold rowStep
  cases hpr : processRow r with
  | none =>
    dsimp only
    refine ⟨⟨h1, h2, ?_, h4⟩, hc1, hc2⟩
    show ls.processed + ls.batch.length + n ≤ total
    omega
  | some m =>
    dsimp only
    have hlen : (ls.batch ++ [m]).length = ls.batch.length + 1 := by simp
    by_cases hb : batchSize ≤ (ls.batch ++ [m]).length
    · rw [if_pos hb]
      by_cases hins : insertFails env ls.insertCalls = true
      · rw [if_pos hins]
        refine ⟨⟨h1, h2, ?_, ?_⟩, hc1, hc2⟩
        · show ls.processed + (ls.batch ++ [m]).length + n ≤ total
          omega
        · right
          show insertFails env (ls.insertCalls + 1) = true
          exact insertFails_mono hins
      · rw [if_neg hins]
        have hble : (ls.batch ++ [m]).length ≤ batchSize := by
          rcases h4 with h4 | h4
          · omega
          · exact absurd h4 hins
        have hpm : ls.processed ≤ ls.processed + (ls.batch ++ [m]).length :=
          Nat.le_add_right _ _
        have hab : statusStep ls.status
            { ls.status with
              processed := ls.processed + (ls.batch ++ [m]).length
              percentage := pctOf total (ls.processed + (ls.batch ++ [m]).length) } := by
          refine ⟨?_, ?_, ?_⟩
          · show ls.status.processed ≤ ls.processed + (ls.batch ++ [m]).length
            omega
          · show ls.processed + (ls.batch ++ [m]).length
                ≤ ls.status.processed + batchSize
            omega
          · show ls.status.percentage
                ≤ pctOf total (ls.processed + (ls.batch ++ [m]).length)
            exact le_trans h2 (pctOf_mono hpm)
        have hchain := chain_snoc hc1 hc2 hab
        refine ⟨⟨rfl, le_refl _, ?_, ?_⟩, ?_, ?_⟩
        · show ls.processed + (ls.batch ++ [m]).length
              + ([] : List MovieRec).length + n ≤ total
          simp only [List.length_nil]
          omega
        · left
          show ([] : List MovieRec).length < batchSize
          exact batchSize_pos
        · show List.Chain' statusStep (trace ++ (ls.snaps ++
            [{ ls.status with
               processed := ls.processed + (ls.batch ++ [m]).length
               percentage := pctOf total (ls.processed + (ls.batch ++ [m]).length) }]))
          rw [← List.append_assoc]
          exact hchain.1
        · show (trace ++ (ls.snaps ++
            [{ ls.status with
               processed := ls.processed + (ls.batch ++ [m]).length
               percentage := pctOf total (ls.processed + (ls.batch ++ [m]).length) }])).getLast?
            = some { ls.status with
               processed := ls.processed + (ls.batch ++ [m]).length
               percentage := pctOf total (ls.processed + (ls.batch ++ [m]).length) }
          rw [← List.append_assoc]
          exact hchain.2
    · rw [if_neg hb]
      refine ⟨⟨h1, h2, ?_, ?_⟩, hc1, hc2⟩
      · show ls.processed + (ls.batch ++ [m]).length + n ≤ total
        omega
      · left
        show (ls.batch ++ [m]).length < batchSize
        omega

lemma loop_inv_fold (env : Env) (total : Nat) (trace : List ImportStatus) :
    ∀ (rows : List SourceRow) (ls : LoopState),
      loopInv env total rows.length ls → chainInv trace ls →
      loopInv env total 0 (rows.foldl (rowStep env total) ls) ∧
      chainInv trace (rows.foldl (rowStep env total) ls) := by
  intro rows
  induction rows with
  | nil => intro ls hI hC; exact ⟨hI, hC⟩
  | cons r rs ih =>
    intro ls hI hC
    have hstep := rowStep_inv env total trace ls r rs.length hI hC
    simp only [List.foldl_cons]
    exact ih (rowStep env total ls r) hstep.1 hstep.2

/-- C8: over any run started from a freshly reset status, the sequence of
status snapshots a concurrent reader can observe has monotonically
non-decreasing processed counts and percentages, and processed jumps by
at most one batch (batchSize = 1000) between consecutive snapshots. -/
theorem import_progress_monotone (env : Env) (source : List SourceRow)
    (s : SysState) (h0 : s.status.processed = 0)
    (h1 : s.status.percentage = 0) :
    List.Chain' statusStep (importData env source s).snaps := by
  have hstep0 : statusStep s.status { s.status with total := totalOf source } :=
    ⟨le_refl _, Nat.le_add_right _ _, le_refl _⟩
  unfold importData
  by_cases hso : env.fail = some .sourceOpen
  · rw [if_pos hso]
    unfold failedState
    exact List.chain'_pair.mpr ⟨le_refl _, Nat.le_add_right _ _, le_refl _⟩
  · rw [if_neg hso]
    by_cases hsc : env.fail = some .stagingCreate
    · rw [if_pos hsc]
      unfold failedState
      exact List.chain'_cons.mpr ⟨hstep0,
        List.chain'_pair.mpr ⟨le_refl _, Nat.le_add_right _ _, le_refl _⟩⟩
    · rw [if_neg hsc]
      have hInit : loopInv env (totalOf source) (fetchRows source).length
          (initLoopState { s.status with total := totalOf source }) := by
        refine ⟨?_, ?_, ?_, ?_⟩
        · show s.status.processed = 0
          exact h0
        · show s.status.percentage ≤ pctOf (totalOf source) 0
          rw [h1]
          exact pctOf_nonneg _ _
        · show 0 + ([] : List MovieRec).length + (fetchRows source).length
              ≤ totalOf source
          simp [totalOf]
        · left
          show ([] : List MovieRec).length < batchSize
          exact batchSize_pos
      have hChain : chainInv [s.status, { s.status with total := totalOf source }]
          (initLoopState { s.status with total := totalOf source }) := by
        constructor
        · show List.Chain' statusStep
            ([s.status, { s.status with total := totalOf source }] ++ [])
          rw [List.append_nil]
          exact List.chain'_pair.mpr hstep0
        · rfl
      obtain ⟨hIfin, hCfin⟩ :
          loopInv env (totalOf source) 0
            (runLoop env (totalOf source) (fetchRows source)
              { s.status with total := totalOf source }) ∧
          chainInv [s.status, { s.status with total := totalOf source }]
            (runLoop env (totalOf source) (fetchRows source)
              { s.status with total := totalOf source }) :=
        loop_inv_fold env (totalOf source)
          [s.status, { s.status with total := totalOf source }]
          (fetchRows source)
          (initLoopState { s.status with total := totalOf source }) hInit hChain
      set L := runLoop env (totalOf source) (fetchRows source)
        { s.status with total := totalOf source } with hLdef
      obtain ⟨hi1, hi2, hi3, hi4⟩ := hIfin
      obtain ⟨hch, hlast⟩ := hCfin
      have habF : ∀ msg : String, statusStep L.status
          { L.status with
            status := .failed
            message := some msg
            completed_at := some env.now } :=
        fun _ => ⟨le_refl _, Nat.le_add_right _ _, le_refl _⟩
      by_cases hfb : L.batch ≠ [] ∧ insertFails env L.insertCalls = true
      · rw [if_pos hfb]
        unfold failedState
        exact (chain_snoc hch hlast (habF "insert batch failure")).1
      · rw [if_neg hfb]
        by_cases hco : env.fail = some .commit
        · rw [if_pos hco]
          unfold failedState
          exact (chain_snoc hch hlast (habF "commit failure")).1
        · rw [if_neg hco]
          by_cases hsw : env.fail = some .swap
          · rw [if_pos hsw]
            unfold failedState
            exact (chain_snoc hch hlast (habF "swap failure")).1
          · rw [if_neg hsw]
            have hblen : L.batch.length ≤ batchSize := by
              rcases hi4 with h | h
              · omega
              · have hbe : L.batch = [] :=
                  not_not.mp (fun hne => hfb ⟨hne, h⟩)
                rw [hbe]
                exact Nat.zero_le _
            have hple : L.processed ≤ totalOf source := by omega
            have hab : statusStep L.status
                { L.status with
                  status := .completed
                  processed := L.processed + L.batch.length
                  percentage := 100
                  completed_at := some env.now } := by
              refine ⟨?_, ?_, ?_⟩
              · show L.status.processed ≤ L.processed + L.batch.length
                omega
              · show L.processed + L.batch.length ≤ L.status.processed + batchSize
                omega
              · show L.status.percentage ≤ 100
                exact le_trans hi2 (pctOf_le_100 hple)
            exact (chain_snoc hch hlast hab).1

/-- Witness for C8: a small concrete run from a fresh status. -/
theorem import_progress_monotone_witness :
    List.Chain' statusStep
      (importData {} [erroringRow, negativeCountRow]
        { status := freshRunning 3 }).snaps :=
  import_progress_monotone {} [erroringRow, negativeCountRow]
    { status := freshRunning 3 } rfl rfl

end DoubanScout
